import Mathlib

/-!
Verification development for the voice-synthesis transport adapter and the
job-queue module of the waoowaoo repository.

The embedding models byte buffers as `List Nat` (each entry one byte value),
JavaScript numbers occurring in the modelled code paths as exact naturals
(all arithmetic on the modelled paths is exact in IEEE doubles), and
exceptions as `Option`/`Except` results.  Functions are translated from
`src/src/lib/voice/generate-voice-line.ts` and `src/unnamed/part_003`.
-/

/-- Models `buffer.slice(off, off+len).toString('ascii')` at the code-point
level: Node's `ascii` decoding masks each byte with `0x7f`.  Comparisons of
the resulting string with an ASCII literal are modelled as comparisons of
this code-point list with the byte values of the literal. -/
def asciiSlice (b : List Nat) (off len : Nat) : List Nat :=
  ((b.drop off).take len).map (· % 128)

/-- Models `buffer.readUInt32LE(off)`: reads four little-endian bytes, or
fails (Node throws a `RangeError`) when fewer than four bytes remain. -/
def readUInt32LE (b : List Nat) (off : Nat) : Option Nat :=
  match (b.drop off).take 4 with
  | [b0, b1, b2, b3] =>
      some (b0 % 256 + 256 * (b1 % 256) + 65536 * (b2 % 256) + 16777216 * (b3 % 256))
  | _ => none

/-- Models `Math.round(num / den)` for non-negative exact rationals:
round half away from zero, i.e. `⌊num/den + 1/2⌋`. -/
def jsRound (num den : Nat) : Nat :=
  (2 * num + den) / (2 * den)

/-- Little-endian byte serialization of a 32-bit value, as produced by the
four `buffer.writeUInt32LE` calls (value assumed within range by caller). -/
def u32le (v : Nat) : List Nat :=
  [v % 256, v / 256 % 256, v / 65536 % 256, v / 16777216 % 256]

/-- Little-endian byte serialization of a 16-bit value (`writeUInt16LE`). -/
def u16le (v : Nat) : List Nat :=
  [v % 256, v / 256 % 256]

/-- The chunk-scan loop of `getWavDurationFromBuffer`: starting at `offset`,
walk the RIFF chunk list; on the `"data"` chunk return its declared size,
on running past `buffer.length - 8` return the initial `dataSize = 0`.
`none` models a thrown `RangeError` from `readUInt32LE` (unreachable under
the loop guard, but modelled faithfully). -/
def findDataChunkSize (b : List Nat) (offset : Nat) : Option Nat :=
  if _h : (offset : Int) < (b.length : Int) - 8 then
    match readUInt32LE b (offset + 4) with
    | none => none
    | some chunkSize =>
      if asciiSlice b offset 4 = [100, 97, 116, 97] then some chunkSize
      else findDataChunkSize b (offset + 8 + chunkSize)
  else some 0
termination_by b.length - offset
decreasing_by
  omega

/-- The `try` block of `getWavDurationFromBuffer`; `none` models a thrown
exception (caught by the surrounding `catch`). -/
def getWavDurationTry (b : List Nat) : Option Nat :=
  if asciiSlice b 0 4 ≠ [82, 73, 70, 70] then
    some (jsRound (b.length * 8) 128)
  else
    match readUInt32LE b 28 with
    | none => none
    | some byteRate =>
      match findDataChunkSize b 12 with
      | none => none
      | some dataSize =>
        if 0 < dataSize ∧ 0 < byteRate then
          some (jsRound (dataSize * 1000) byteRate)
        else
          some (jsRound (b.length * 8) 128)

/-- `getWavDurationFromBuffer` from `generate-voice-line.ts`: the `catch`
maps any thrown exception to the 128-bit/s fallback. -/
def getWavDurationFromBuffer (b : List Nat) : Nat :=
  match getWavDurationTry b with
  | some v => v
  | none => jsRound (b.length * 8) 128

/-- `isWavBuffer`: length at least 12, `"RIFF"` at offset 0 and `"WAVE"` at
offset 8. -/
def isWavBuffer (b : List Nat) : Bool :=
  if b.length < 12 then false
  else decide (asciiSlice b 0 4 = [82, 73, 70, 70]) &&
       decide (asciiSlice b 8 4 = [87, 65, 86, 69])

/-- `wrapPcm16MonoToWav`: 44-byte canonical header followed by the raw
samples.  `none` models the `RangeError` thrown by `writeUInt32LE` when one
of the four 32-bit fields (total size, sample rate, byte rate, data size)
is out of the `u32` range. -/
def wrapPcm16MonoToWav (pcm : List Nat) (sampleRate : Nat) : Option (List Nat) :=
  let blockAlign := 2
  let byteRate := sampleRate * blockAlign
  if 36 + pcm.length ≤ 4294967295 ∧ sampleRate ≤ 4294967295 ∧
     byteRate ≤ 4294967295 ∧ pcm.length ≤ 4294967295 then
    some ([82, 73, 70, 70] ++ u32le (36 + pcm.length) ++ [87, 65, 86, 69] ++
          [102, 109, 116, 32] ++ u32le 16 ++ u16le 1 ++ u16le 1 ++
          u32le sampleRate ++ u32le byteRate ++ u16le blockAlign ++ u16le 16 ++
          [100, 97, 116, 97] ++ u32le pcm.length ++ pcm)
  else none

/-- `normalizeQwenAudioToWav`: return the buffer unchanged when it is
already RIFF/WAVE, otherwise wrap it as 16-bit mono PCM. -/
def normalizeQwenAudioToWav (rawAudio : List Nat) (sampleRate : Nat) : Option (List Nat) :=
  if isWavBuffer rawAudio then some rawAudio
  else wrapPcm16MonoToWav rawAudio sampleRate

/-- JSON values as produced by `JSON.parse` (numbers kept abstract as
integers; no handler in the modelled code reads a numeric field). -/
inductive Json where
  | str (s : String)
  | num (n : Int)
  | bool (b : Bool)
  | null
  | arr (elems : List Json)
  | obj (fields : List (String × Json))

/-- Property access `record[key]` on a parsed JSON object (keys assumed
distinct, as produced by `JSON.parse`). -/
def jget (fields : List (String × Json)) (key : String) : Option Json :=
  (fields.find? (fun kv => kv.1 = key)).map (fun kv => kv.2)

/-- Whitespace recognised by `String.prototype.trim` (the modelled strings
only contain ASCII, so the ASCII whitespace class suffices). -/
def isJsWhitespace (c : Char) : Bool :=
  c = ' ' || c = '\t' || c = '\n' || c = '\r' || c = '\x0b' || c = '\x0c'

/-- Models `s.trim()`. -/
def jsTrim (s : String) : String :=
  String.mk (((s.data.dropWhile isJsWhitespace).reverse.dropWhile isJsWhitespace).reverse)

/-- Models `isRecord`: a parsed JSON value is a record iff it is a non-null,
non-array object. -/
def isRecordJ : Json → Bool
  | Json.obj _ => true
  | _ => false

/-- `readOptionalString` applied to a (possibly missing) JSON field:
non-strings give `null`; strings are trimmed and empty results give
`null`. -/
def readOptionalStringJ (v : Option Json) : Option String :=
  match v with
  | some (Json.str s) =>
      let t := jsTrim s
      if t = "" then none else some t
  | _ => none

/-- Value of one base64 alphabet character, `none` for characters outside
the alphabet (Node's forgiving decoder skips those, as does `=` padding). -/
def base64CharVal (c : Char) : Option Nat :=
  if 'A' ≤ c ∧ c ≤ 'Z' then some (c.toNat - 65)
  else if 'a' ≤ c ∧ c ≤ 'z' then some (c.toNat - 97 + 26)
  else if '0' ≤ c ∧ c ≤ '9' then some (c.toNat - 48 + 52)
  else if c = '+' then some 62
  else if c = '/' then some 63
  else none

/-- Reassemble bytes from a list of 6-bit groups (trailing group of one
sextet carries no complete byte and is dropped). -/
def sextetsToBytes : List Nat → List Nat
  | a :: b :: c :: d :: rest =>
      (a * 4 + b / 16) :: ((b % 16) * 16 + c / 4) :: ((c % 4) * 64 + d) ::
        sextetsToBytes rest
  | [a, b] => [a * 4 + b / 16]
  | [a, b, c] => [a * 4 + b / 16, (b % 16) * 16 + c / 4]
  | _ => []

/-- Models `Buffer.from(s, 'base64')`.  Node's decoder never throws for
string input (the surrounding `try`/`catch` in the source is therefore
unreachable); it ignores padding and out-of-alphabet characters. -/
def base64Decode (s : String) : List Nat :=
  sextetsToBytes (s.data.filterMap base64CharVal)

/-- Failure reasons produced by the realtime session, one per `reject`
site of `generateVoiceWithQwenRealtimeTTS`. -/
inductive FailReason where
  | invalidEventUnparseable (text : String)
  | invalidEventNotObject
  | invalidEventMissingType
  | failedWs (detail : String)
  | deltaMissing
  | responseFailed (status : String)
  | noAudio
  | wsSendFailed (msg : String)
  | wsError (msg : String)
  | wsClosed (code : Nat) (reason : String)
  | timeout
deriving DecidableEq

/-- Terminal result of the session promise.  `crash` marks the path where
`normalizeQwenAudioToWav` throws after `settled` was already set: the
promise then never resolves nor rejects. -/
inductive SessionOutcome where
  | success (audioData : List Nat) (audioDuration : Nat)
  | failure (reason : FailReason)
  | crash
deriving DecidableEq

/-- The mutable state captured by the promise executor of
`generateVoiceWithQwenRealtimeTTS`: the accumulated audio chunks and the
`hasResponseDone` / `hasSessionFinished` / `settled` flags, together with
the observable effects of settling (the resolve/reject value and the code
passed to `ws.close`, when a close was issued). -/
structure SessionState where
  audioChunks : List (List Nat)
  hasResponseDone : Bool
  hasSessionFinished : Bool
  settled : Bool
  outcome : Option SessionOutcome
  closeCode : Option Nat
deriving DecidableEq

/-- State at session creation. -/
def initialSession : SessionState :=
  { audioChunks := [], hasResponseDone := false, hasSessionFinished := false,
    settled := false, outcome := none, closeCode := none }

/-- The `fail` helper: no-op when settled, otherwise mark settled, close
the socket with code 1011 and reject. -/
def sessionFail (reason : FailReason) (s : SessionState) : SessionState :=
  if s.settled then s
  else { s with settled := true, closeCode := some 1011,
                outcome := some (SessionOutcome.failure reason) }

/-- The `finish` helper: no-op when settled; with zero accumulated chunks
reject with the protocol error and return (note: without closing the
socket); otherwise concatenate, normalize to WAV, resolve and close with
code 1000. -/
def sessionFinish (s : SessionState) : SessionState :=
  if s.settled then s
  else if s.audioChunks = [] then
    { s with settled := true,
             outcome := some (SessionOutcome.failure FailReason.noAudio) }
  else
    match normalizeQwenAudioToWav s.audioChunks.flatten 24000 with
    | some wavAudio =>
        { s with settled := true,
                 outcome := some (SessionOutcome.success wavAudio
                   (getWavDurationFromBuffer wavAudio)),
                 closeCode := some 1000 }
    | none => { s with settled := true, outcome := some SessionOutcome.crash }

/-- The status extraction of the `response.done` branch:
`responseData = isRecord(messageData.response) ? messageData.response : null`
followed by `responseData ? readOptionalString(responseData.status) : null`. -/
def responseStatusOf (fields : List (String × Json)) : Option String :=
  match jget fields "response" with
  | some (Json.obj rf) => readOptionalStringJ (jget rf "status")
  | _ => none

/-- The `'message'` handler: `text` is `decodeWsMessageToText(data)` and
`parsed` the result of `JSON.parse` on its trimmed form (`none` models a
thrown `SyntaxError`). -/
def handleMessage (s : SessionState) (text : String) (parsed : Option Json) : SessionState :=
  let messageText := jsTrim text
  if messageText = "" then s
  else
    match parsed with
    | none => sessionFail (FailReason.invalidEventUnparseable messageText) s
    | some j =>
      match j with
      | Json.obj fields =>
        match readOptionalStringJ (jget fields "type") with
        | none => sessionFail FailReason.invalidEventMissingType s
        | some eventType =>
          if eventType = "error" then
            let errorPayload := match jget fields "error" with
              | some (Json.obj ef) => some ef
              | _ => none
            let code := match errorPayload with
              | some ef => readOptionalStringJ (jget ef "code")
              | none => none
            let message := match errorPayload with
              | some ef => readOptionalStringJ (jget ef "message")
              | none => none
            sessionFail (FailReason.failedWs (message.getD (code.getD messageText))) s
          else if eventType = "response.audio.delta" then
            match readOptionalStringJ (jget fields "delta") with
            | none => sessionFail FailReason.deltaMissing s
            | some delta =>
                { s with audioChunks := s.audioChunks ++ [base64Decode delta] }
          else if eventType = "response.done" then
            let s1 := { s with hasResponseDone := true }
            match responseStatusOf fields with
            | some st =>
                if st ≠ "completed" then sessionFail (FailReason.responseFailed st) s1
                else if s1.hasSessionFinished then sessionFinish s1 else s1
            | none => if s1.hasSessionFinished then sessionFinish s1 else s1
          else if eventType = "session.finished" then
            let s1 := { s with hasSessionFinished := true }
            if s1.hasResponseDone ∨ s1.audioChunks ≠ [] then sessionFinish s1 else s1
          else s
      | _ => sessionFail FailReason.invalidEventNotObject s

/-- The `'close'` handler. -/
def handleClose (s : SessionState) (code : Nat) (reason : String) : SessionState :=
  if s.settled then s
  else
    let reasonText := jsTrim reason
    if s.audioChunks ≠ [] ∧ (s.hasResponseDone ∨ s.hasSessionFinished) then
      sessionFinish s
    else sessionFail (FailReason.wsClosed code reasonText) s

/-- Events delivered to the session: the websocket callbacks plus the
45-second timer.  `openOk` is the `'open'` callback where all four sends
succeed; `openSendFail` is the same callback where a send threw. -/
inductive WsEvent where
  | message (text : String) (parsed : Option Json)
  | wsError (msg : String)
  | close (code : Nat) (reason : String)
  | timeout
  | openOk
  | openSendFail (msg : String)

/-- One transition of the session state machine. -/
def sessionStep (s : SessionState) (e : WsEvent) : SessionState :=
  match e with
  | WsEvent.message text parsed => handleMessage s text parsed
  | WsEvent.wsError msg => sessionFail (FailReason.wsError msg) s
  | WsEvent.close code reason => handleClose s code reason
  | WsEvent.timeout => sessionFail FailReason.timeout s
  | WsEvent.openOk => s
  | WsEvent.openSendFail msg => sessionFail (FailReason.wsSendFailed msg) s

/-- Run a session from creation over a list of events. -/
def runSession (events : List WsEvent) : SessionState :=
  events.foldl sessionStep initialSession

/-- `readQwenAudioBase64`: `output.audio.data` as an optional string. -/
def readQwenAudioBase64 (data : Option Json) : Option String :=
  match data with
  | some (Json.obj f) =>
    match jget f "output" with
    | some (Json.obj o) =>
      match jget o "audio" with
      | some (Json.obj a) => readOptionalStringJ (jget a "data")
      | _ => none
    | _ => none
  | _ => none

/-- `readQwenAudioUrl`: `output.audio.url`, falling back to
`output.audio_url`. -/
def readQwenAudioUrl (data : Option Json) : Option String :=
  match data with
  | some (Json.obj f) =>
    match jget f "output" with
    | some (Json.obj o) =>
      let fromAudio := match jget o "audio" with
        | some (Json.obj a) => readOptionalStringJ (jget a "url")
        | _ => none
      match fromAudio with
      | some url => some url
      | none => readOptionalStringJ (jget o "audio_url")
    | _ => none
  | _ => none

/-- The synthesis endpoint's HTTP response as observed by
`generateVoiceWithQwenTTSHttp`: status, raw body text, and the result of
`JSON.parse` on the body (`none` models a parse failure). -/
structure HttpResponse where
  ok : Bool
  status : Nat
  body : String
  parsedBody : Option Json

/-- Result of the second fetch that downloads `audio_url`. -/
structure AudioFetch where
  ok : Bool
  status : Nat
  bytes : List Nat

/-- Error classification, one constructor per `throw` site of
`generateVoiceWithQwenTTSHttp`. -/
inductive HttpTtsError where
  | failed (status : Nat) (detail : String)
  | invalidResponse
  | downloadFailed (status : Nat)
deriving DecidableEq

/-- The `{audioData, audioDuration}` payload both transports resolve
with. -/
structure AudioResult where
  audioData : List Nat
  audioDuration : Nat
deriving DecidableEq

/-- `responseData` as computed from the raw body: empty bodies are never
parsed and stay `null`; parse failures also give `null`. -/
def responseDataOf (r : HttpResponse) : Option Json :=
  if r.body = "" then none else r.parsedBody

/-- Error detail for a non-success status: `message` or `code` from the
parsed body, else the raw body, else a constant. -/
def httpFailDetail (d : Option Json) (raw : String) : String :=
  let detail := match d with
    | some (Json.obj f) =>
        match readOptionalStringJ (jget f "message") with
        | some m => some m
        | none => readOptionalStringJ (jget f "code")
    | _ => none
  detail.getD (if raw = "" then "unknown error" else raw)

/-- `generateVoiceWithQwenTTSHttp`, the request/response transport: one
HTTP call whose response is passed in as `r`; `fetchAudio` models the
follow-up download of `audio_url` (the URL is first made fetchable by
`toFetchableUrl`, absorbed into the oracle). -/
def generateVoiceWithQwenTTSHttp (r : HttpResponse)
    (fetchAudio : String → AudioFetch) : Except HttpTtsError AudioResult :=
  let responseData := responseDataOf r
  if r.ok = false then
    Except.error (HttpTtsError.failed r.status (httpFailDetail responseData r.body))
  else
    match readQwenAudioBase64 responseData with
    | some audioBase64 =>
        let audioData := base64Decode audioBase64
        Except.ok { audioData := audioData,
                    audioDuration := getWavDurationFromBuffer audioData }
    | none =>
      match readQwenAudioUrl responseData with
      | none => Except.error HttpTtsError.invalidResponse
      | some audioUrl =>
        let ar := fetchAudio audioUrl
        if ar.ok = false then Except.error (HttpTtsError.downloadFailed ar.status)
        else Except.ok { audioData := ar.bytes,
                         audioDuration := getWavDurationFromBuffer ar.bytes }

/-- Does `needle` occur as a contiguous substring of `hay`
(`String.prototype.includes`)? -/
def stringIncludes (hay needle : String) : Bool :=
  (List.range (hay.data.length + 1)).any
    (fun i => needle.data.isPrefixOf (hay.data.drop i))

/-- Models `String.prototype.toLowerCase` on the ASCII range (model ids are
ASCII). -/
def jsToLowerCase (s : String) : String :=
  String.mk (s.data.map fun c =>
    if 'A' ≤ c ∧ c ≤ 'Z' then Char.ofNat (c.toNat + 32) else c)

/-- `isQwenRealtimeModel`: case-insensitive test that the model id contains
`"realtime"`, selecting the streaming transport. -/
def isQwenRealtimeModel (modelId : String) : Bool :=
  stringIncludes (jsToLowerCase modelId) "realtime"

/-- Modelled from the spec: the closed enumeration of task kinds.  The file
`src/lib/task/types.ts` defining `TASK_TYPE` is not under `src/`; the
constructors are the task kinds referenced by the queue module
(`src/unnamed/part_003`) and the workers. -/
inductive TaskType where
  | IMAGE_PANEL
  | IMAGE_CHARACTER
  | IMAGE_LOCATION
  | PANEL_VARIANT
  | MODIFY_ASSET_IMAGE
  | REGENERATE_GROUP
  | ASSET_HUB_IMAGE
  | ASSET_HUB_MODIFY
  | VIDEO_PANEL
  | LIP_SYNC
  | VOICE_LINE
  | VOICE_DESIGN
  | ASSET_HUB_VOICE_DESIGN
deriving DecidableEq, BEq

/-- The four queue names (`'image' | 'video' | 'voice' | 'text'`). -/
inductive QueueType where
  | image
  | video
  | voice
  | text
deriving DecidableEq

/-- The `IMAGE_TYPES` set from the queue module. -/
def IMAGE_TYPES : List TaskType :=
  [TaskType.IMAGE_PANEL, TaskType.IMAGE_CHARACTER, TaskType.IMAGE_LOCATION,
   TaskType.PANEL_VARIANT, TaskType.MODIFY_ASSET_IMAGE, TaskType.REGENERATE_GROUP,
   TaskType.ASSET_HUB_IMAGE, TaskType.ASSET_HUB_MODIFY]

/-- The `VIDEO_TYPES` set. -/
def VIDEO_TYPES : List TaskType := [TaskType.VIDEO_PANEL, TaskType.LIP_SYNC]

/-- The `VOICE_TYPES` set. -/
def VOICE_TYPES : List TaskType :=
  [TaskType.VOICE_LINE, TaskType.VOICE_DESIGN, TaskType.ASSET_HUB_VOICE_DESIGN]

/-- `getQueueTypeByTaskType`: first matching set wins, `'text'` is the
fallback. -/
def getQueueTypeByTaskType (t : TaskType) : QueueType :=
  if IMAGE_TYPES.contains t then QueueType.image
  else if VIDEO_TYPES.contains t then QueueType.video
  else if VOICE_TYPES.contains t then QueueType.voice
  else QueueType.text

/-- The job ids currently held by the four queues, in the fixed order of
`ALL_QUEUES = [imageQueue, videoQueue, voiceQueue, textQueue]`.  A BullMQ
queue holds at most one job per id; `queue.getJob(id)` is membership and
`job.remove()` deletes that job. -/
structure TaskQueuesState where
  image : List String
  video : List String
  voice : List String
  text : List String
deriving DecidableEq

/-- `removeTaskJob`: scan the queues in order, remove the first job found
with the given id and return `true`; return `false` when no queue holds
it. -/
def removeTaskJob (st : TaskQueuesState) (taskId : String) : Bool × TaskQueuesState :=
  if st.image.contains taskId then (true, { st with image := st.image.erase taskId })
  else if st.video.contains taskId then (true, { st with video := st.video.erase taskId })
  else if st.voice.contains taskId then (true, { st with voice := st.voice.erase taskId })
  else if st.text.contains taskId then (true, { st with text := st.text.erase taskId })
  else (false, st)

/-- A `response.done` event with status `completed`, as delivered on the
wire and as parsed. -/
def evRespDoneCompleted : WsEvent :=
  WsEvent.message "\x7b\"type\":\"response.done\",\"response\":\x7b\"status\":\"completed\"\x7d\x7d"
    (some (Json.obj [("type", Json.str "response.done"),
                     ("response", Json.obj [("status", Json.str "completed")])]))

/-- A `session.finished` event. -/
def evSessionFinished : WsEvent :=
  WsEvent.message "\x7b\"type\":\"session.finished\"\x7d"
    (some (Json.obj [("type", Json.str "session.finished")]))

/-- A `response.done` event carrying no `response` object at all. -/
def evRespDoneNoStatus : WsEvent :=
  WsEvent.message "\x7b\"type\":\"response.done\"\x7d"
    (some (Json.obj [("type", Json.str "response.done")]))

/-- A 32-byte buffer that starts with `"RIFF"` but not `"WAVE"` (bytes 8-11
are `"XXXX"`), with a `"data"` chunk of declared size 4000 at offset 12 and
byte-rate field 1000 at offset 28. -/
def riffNoWaveBuf : List Nat :=
  [82, 73, 70, 70, 0, 0, 0, 0, 88, 88, 88, 88, 100, 97, 116, 97,
   160, 15, 0, 0, 0, 0, 0, 0, 0, 0, 0, 0, 232, 3, 0, 0]

/-- An unsettled session state holding one already-accumulated single-byte
audio chunk. -/
def oneChunkSession : SessionState :=
  { audioChunks := [[0]], hasResponseDone := false, hasSessionFinished := false,
    settled := false, outcome := none, closeCode := none }

/-- The WAV buffer produced by normalizing that one-byte chunk at
24000 Hz. -/
def oneChunkWav : List Nat :=
  [82, 73, 70, 70, 37, 0, 0, 0, 87, 65, 86, 69, 102, 109, 116, 32,
   16, 0, 0, 0, 1, 0, 1, 0, 192, 93, 0, 0, 128, 187, 0, 0,
   2, 0, 16, 0, 100, 97, 116, 97, 1, 0, 0, 0, 0]

/-- A success response of the synthesis endpoint whose body carries inline
base64 audio `"AA=="`, i.e. a single zero byte, which is not
container-formatted. -/
def inlineAudioResponse : HttpResponse :=
  { ok := true, status := 200,
    body := "\x7b\"output\":\x7b\"audio\":\x7b\"data\":\"AA==\"\x7d\x7d\x7d",
    parsedBody :=
      some (Json.obj [("output", Json.obj [("audio", Json.obj [("data", Json.str "AA==")])])]) }

/-- An audio-download oracle for scenarios that never reach the second
fetch. -/
def noFetch : String → AudioFetch := fun _ => { ok := false, status := 0, bytes := [] }

/-- An already-settled session (as produced by a timeout failure), used to
exercise the no-op behaviour of events after settlement. -/
def settledFailedSession : SessionState :=
  { audioChunks := [], hasResponseDone := false, hasSessionFinished := false,
    settled := true, outcome := some (SessionOutcome.failure FailReason.timeout),
    closeCode := some 1011 }

/-- A `response.done` event whose status is `failed`. -/
def evRespDoneFailed : WsEvent :=
  WsEvent.message "\x7b\"type\":\"response.done\",\"response\":\x7b\"status\":\"failed\"\x7d\x7d"
    (some (Json.obj [("type", Json.str "response.done"),
                     ("response", Json.obj [("status", Json.str "failed")])]))

/-- The 44-byte container produced by wrapping an empty PCM payload. -/
def emptyPcmWav : List Nat :=
  [82, 73, 70, 70, 36, 0, 0, 0, 87, 65, 86, 69, 102, 109, 116, 32,
   16, 0, 0, 0, 1, 0, 1, 0, 1, 0, 0, 0, 2, 0, 0, 0,
   2, 0, 16, 0, 100, 97, 116, 97, 0, 0, 0, 0]

/-- Helper: `fail` is a no-op once settled. -/
theorem sessionFail_of_settled (r : FailReason) (s : SessionState)
    (h : s.settled = true) : sessionFail r s = s := by
  simp [sessionFail, h]

/-- Helper: `finish` is a no-op once settled. -/
theorem sessionFinish_of_settled (s : SessionState)
    (h : s.settled = true) : sessionFinish s = s := by
  simp [sessionFinish, h]

/-- Helper: `fail` on an unsettled session settles it, closing with code 1011. -/
theorem sessionFail_of_unsettled (r : FailReason) (s : SessionState)
    (h : s.settled = false) :
    sessionFail r s = { s with settled := true, closeCode := some 1011,
                               outcome := some (SessionOutcome.failure r) } := by
  simp [sessionFail, h]

/-- Helper: `finish` with zero chunks rejects with the protocol error and issues no close. -/
theorem sessionFinish_noAudio (s : SessionState)
    (hs : s.settled = false) (hc : s.audioChunks = []) :
    sessionFinish s = { s with settled := true,
                               outcome := some (SessionOutcome.failure FailReason.noAudio) } := by
  simp [sessionFinish, hs, hc]

/-- Helper: `finish` with audio accumulated resolves with the normalized WAV and closes with code 1000. -/
theorem sessionFinish_success (s : SessionState) (wav : List Nat)
    (hs : s.settled = false) (hc : s.audioChunks ≠ [])
    (hn : normalizeQwenAudioToWav s.audioChunks.flatten 24000 = some wav) :
    (sessionFinish s).settled = true ∧
    (sessionFinish s).outcome
      = some (SessionOutcome.success wav (getWavDurationFromBuffer wav)) ∧
    (sessionFinish s).closeCode = some 1000 := by
  simp [sessionFinish, hs, hc, hn]

/-- Helper: `finish` never produces a `responseFailed` outcome. -/
theorem sessionFinish_not_responseFailed (s : SessionState) (ho : s.outcome = none) :
    ∀ stv, (sessionFinish s).outcome
      ≠ some (SessionOutcome.failure (FailReason.responseFailed stv)) := by
  intro stv
  simp only [sessionFinish]
  repeat' split
  all_goals simp_all

/-- Helper: once settled, every event preserves the settled flag, the outcome and the close code. -/
theorem sessionStep_of_settled (s : SessionState) (e : WsEvent)
    (h : s.settled = true) :
    (sessionStep s e).settled = true ∧ (sessionStep s e).outcome = s.outcome ∧
    (sessionStep s e).closeCode = s.closeCode := by
  cases e with
  | message text parsed =>
    simp only [sessionStep, handleMessage]
    repeat' split
    all_goals simp_all [sessionFail, sessionFinish]
  | wsError msg => simp [sessionStep, sessionFail_of_settled _ _ h, h]
  | close code reason => simp [sessionStep, handleClose, h]
  | timeout => simp [sessionStep, sessionFail_of_settled _ _ h, h]
  | openOk => simp [sessionStep, h]
  | openSendFail msg => simp [sessionStep, sessionFail_of_settled _ _ h, h]

/-- Helper: from an unsettled zero-chunk state, no single event settles the session as success. -/
theorem sessionStep_no_success_of_no_audio (s : SessionState) (e : WsEvent)
    (h1 : s.settled = false) (h2 : s.audioChunks = []) (h3 : s.outcome = none) :
    ∀ (a : List Nat) (d : Nat),
      (sessionStep s e).outcome ≠ some (SessionOutcome.success a d) := by
  intro a d
  cases e with
  | message text parsed =>
    simp only [sessionStep, handleMessage]
    repeat' split
    all_goals simp_all [sessionFail, sessionFinish]
  | wsError msg => simp [sessionStep, sessionFail, h1]
  | close code reason => simp [sessionStep, handleClose, sessionFail, h1, h2]
  | timeout => simp [sessionStep, sessionFail, h1]
  | openOk => simp [sessionStep, h3]
  | openSendFail msg => simp [sessionStep, sessionFail, h1]

/-- Helper: evaluation of the message handler on a `response.done` event. -/
theorem handleMessage_respDone (s : SessionState) (text : String)
    (fields : List (String × Json)) (ht : jsTrim text ≠ "")
    (hty : readOptionalStringJ (jget fields "type") = some "response.done") :
    handleMessage s text (some (Json.obj fields)) =
      match responseStatusOf fields with
      | some st =>
          if st ≠ "completed" then
            sessionFail (FailReason.responseFailed st) { s with hasResponseDone := true }
          else if s.hasSessionFinished then
            sessionFinish { s with hasResponseDone := true }
          else { s with hasResponseDone := true }
      | none =>
          if s.hasSessionFinished then sessionFinish { s with hasResponseDone := true }
          else { s with hasResponseDone := true } := by
  simp only [handleMessage]
  rw [if_neg ht, hty]
  simp only []
  rw [if_neg (by decide), if_neg (by decide)]
  simp only [if_true]

/-- Helper: evaluation of the message handler on a `session.finished` event. -/
theorem handleMessage_sessionFinished (s : SessionState) (text : String)
    (fields : List (String × Json)) (ht : jsTrim text ≠ "")
    (hty : readOptionalStringJ (jget fields "type") = some "session.finished") :
    handleMessage s text (some (Json.obj fields)) =
      if s.hasResponseDone ∨ s.audioChunks ≠ [] then
        sessionFinish { s with hasSessionFinished := true }
      else { s with hasSessionFinished := true } := by
  simp only [handleMessage]
  rw [if_neg ht, hty]
  simp only []
  rw [if_neg (by decide), if_neg (by decide), if_neg (by decide)]
  simp only [if_true]

/-- Helper: `fail` preserves the `hasResponseDone` flag. -/
theorem sessionFail_hasResponseDone (r : FailReason) (s : SessionState) :
    (sessionFail r s).hasResponseDone = s.hasResponseDone := by
  simp only [sessionFail]
  split <;> rfl

/-- Helper: `finish` preserves the `hasResponseDone` flag. -/
theorem sessionFinish_hasResponseDone (s : SessionState) :
    (sessionFinish s).hasResponseDone = s.hasResponseDone := by
  simp only [sessionFinish]
  repeat' split
  all_goals rfl

/-- Helper: a buffer that does not begin with `"RIFF"` gets the 128-bit/s fallback duration. -/
theorem wavDuration_fallback_of_not_riff (b : List Nat)
    (h : asciiSlice b 0 4 ≠ [82, 73, 70, 70]) :
    getWavDurationFromBuffer b = jsRound (b.length * 8) 128 := by
  simp [getWavDurationFromBuffer, getWavDurationTry, h]

/-- Claim C1 (amended): settlement is order-insensitive in the two completion
signals once at least one audio-delta chunk has been accumulated (and the
accumulated audio normalizes, i.e. its size fields are in range): after
`response.done{status:completed}` then `session.finished` the session is
settled as success; `session.finished` arriving before any `response.done`
also settles as success; and the settlement happens exactly once - no later
event changes the outcome.  The claim as stated fails when zero chunks were
accumulated: see the counterexample. -/
theorem C1_amended (s : SessionState) (wav : List Nat)
    (hs : s.settled = false) (hc : s.audioChunks ≠ [])
    (hn : normalizeQwenAudioToWav s.audioChunks.flatten 24000 = some wav) :
    ((sessionStep (sessionStep s evRespDoneCompleted) evSessionFinished).settled = true ∧
     (sessionStep (sessionStep s evRespDoneCompleted) evSessionFinished).outcome
       = some (SessionOutcome.success wav (getWavDurationFromBuffer wav))) ∧
    ((sessionStep s evSessionFinished).settled = true ∧
     (sessionStep s evSessionFinished).outcome
       = some (SessionOutcome.success wav (getWavDurationFromBuffer wav))) ∧
    (∀ e, (sessionStep (sessionStep (sessionStep s evRespDoneCompleted) evSessionFinished) e).outcome
       = some (SessionOutcome.success wav (getWavDurationFromBuffer wav))) := by
  have e1 : sessionStep s evRespDoneCompleted
      = if s.hasSessionFinished then sessionFinish { s with hasResponseDone := true }
        else { s with hasResponseDone := true } := by
    simp only [evRespDoneCompleted, sessionStep]
    rw [handleMessage_respDone s _ _ (by decide) (by decide)]
    rw [show responseStatusOf [("type", Json.str "response.done"),
        ("response", Json.obj [("status", Json.str "completed")])] = some "completed" from by decide]
    simp only []
    rw [if_neg (by decide)]
  have key : ((sessionStep (sessionStep s evRespDoneCompleted) evSessionFinished).settled = true ∧
      (sessionStep (sessionStep s evRespDoneCompleted) evSessionFinished).outcome
        = some (SessionOutcome.success wav (getWavDurationFromBuffer wav))) := by
    by_cases hsf : s.hasSessionFinished
    · rw [e1, if_pos hsf]
      have hfin := sessionFinish_success { s with hasResponseDone := true } wav
        (by simpa using hs) (by simpa using hc) (by simpa using hn)
      have hpres := sessionStep_of_settled _ evSessionFinished hfin.1
      exact ⟨hpres.1, hpres.2.1.trans hfin.2.1⟩
    · rw [e1, if_neg hsf]
      simp only [evSessionFinished, sessionStep]
      rw [handleMessage_sessionFinished _ _ _ (by decide) (by decide)]
      rw [if_pos (Or.inl rfl)]
      have hfin := sessionFinish_success
        { s with hasResponseDone := true, hasSessionFinished := true } wav
        (by simpa using hs) (by simpa using hc) (by simpa using hn)
      exact ⟨hfin.1, hfin.2.1⟩
  refine ⟨key, ?_, ?_⟩
  · simp only [evSessionFinished, sessionStep]
    rw [handleMessage_sessionFinished _ _ _ (by decide) (by decide)]
    rw [if_pos (Or.inr hc)]
    have hfin := sessionFinish_success { s with hasSessionFinished := true } wav
      (by simpa using hs) (by simpa using hc) (by simpa using hn)
    exact ⟨hfin.1, hfin.2.1⟩
  · intro e
    have hpres := sessionStep_of_settled _ e key.1
    rw [hpres.2.1, key.2]

/-- Claim C1 witness: the amended theorem at a session holding one
accumulated chunk. -/
theorem C1_amended_witness :
    ((sessionStep (sessionStep oneChunkSession evRespDoneCompleted) evSessionFinished).settled = true ∧
     (sessionStep (sessionStep oneChunkSession evRespDoneCompleted) evSessionFinished).outcome
       = some (SessionOutcome.success oneChunkWav (getWavDurationFromBuffer oneChunkWav))) ∧
    ((sessionStep oneChunkSession evSessionFinished).settled = true ∧
     (sessionStep oneChunkSession evSessionFinished).outcome
       = some (SessionOutcome.success oneChunkWav (getWavDurationFromBuffer oneChunkWav))) ∧
    (sessionStep (sessionStep (sessionStep oneChunkSession evRespDoneCompleted) evSessionFinished)
        WsEvent.timeout).outcome
      = some (SessionOutcome.success oneChunkWav (getWavDurationFromBuffer oneChunkWav)) := by
  have h := C1_amended oneChunkSession oneChunkWav rfl (by decide) (by decide)
  exact ⟨h.1, h.2.1, h.2.2 WsEvent.timeout⟩

/-- Claim C1 counterexample: with zero audio-delta chunks accumulated,
`response.done{status:completed}` followed by `session.finished` settles the
session as the `noAudio` protocol failure, not as success. -/
theorem C1_counterexample :
    (runSession [evRespDoneCompleted, evSessionFinished]).settled = true ∧
    (runSession [evRespDoneCompleted, evSessionFinished]).outcome
      = some (SessionOutcome.failure FailReason.noAudio) := by
  decide

/-- Claim C2 (amended): a session settles at most once - once settled, every
further event preserves the settled flag, the outcome and the close action;
every `fail` settlement closes the connection with the abnormal code 1011 and
the success path of `finish` closes with the clean code 1000; but the
zero-audio failure path inside `finish` rejects without closing the
connection, so the claim's "closed on every settlement path" fails: see the
counterexample. -/
theorem C2_amended :
    (∀ (s : SessionState) (e : WsEvent), s.settled = true →
      (sessionStep s e).settled = true ∧ (sessionStep s e).outcome = s.outcome ∧
      (sessionStep s e).closeCode = s.closeCode) ∧
    (∀ (s : SessionState) (r : FailReason), s.settled = false →
      (sessionFail r s).settled = true ∧
      (sessionFail r s).outcome = some (SessionOutcome.failure r) ∧
      (sessionFail r s).closeCode = some 1011) ∧
    (∀ (s : SessionState) (wav : List Nat), s.settled = false → s.audioChunks ≠ [] →
      normalizeQwenAudioToWav s.audioChunks.flatten 24000 = some wav →
      (sessionFinish s).settled = true ∧ (sessionFinish s).closeCode = some 1000) ∧
    (∀ (s : SessionState), s.settled = false → s.audioChunks = [] →
      (sessionFinish s).settled = true ∧
      (sessionFinish s).outcome = some (SessionOutcome.failure FailReason.noAudio) ∧
      (sessionFinish s).closeCode = s.closeCode) := by
  refine ⟨fun s e h => sessionStep_of_settled s e h, ?_, ?_, ?_⟩
  · intro s r h
    simp [sessionFail, h]
  · intro s wav hs hc hn
    exact ⟨(sessionFinish_success s wav hs hc hn).1, (sessionFinish_success s wav hs hc hn).2.2⟩
  · intro s hs hc
    rw [sessionFinish_noAudio s hs hc]
    exact ⟨rfl, rfl, rfl⟩

/-- Claim C2 witness: the amended theorem instantiated on a settled session,
a failing settlement, a successful settlement, and the zero-audio
settlement. -/
theorem C2_amended_witness :
    ((sessionStep settledFailedSession evSessionFinished).settled = true ∧
     (sessionStep settledFailedSession evSessionFinished).outcome = settledFailedSession.outcome ∧
     (sessionStep settledFailedSession evSessionFinished).closeCode = settledFailedSession.closeCode) ∧
    ((sessionFail FailReason.timeout initialSession).settled = true ∧
     (sessionFail FailReason.timeout initialSession).outcome
       = some (SessionOutcome.failure FailReason.timeout) ∧
     (sessionFail FailReason.timeout initialSession).closeCode = some 1011) ∧
    ((sessionFinish oneChunkSession).settled = true ∧
     (sessionFinish oneChunkSession).closeCode = some 1000) ∧
    ((sessionFinish initialSession).settled = true ∧
     (sessionFinish initialSession).outcome = some (SessionOutcome.failure FailReason.noAudio) ∧
     (sessionFinish initialSession).closeCode = initialSession.closeCode) :=
  ⟨C2_amended.1 settledFailedSession evSessionFinished rfl,
   C2_amended.2.1 initialSession FailReason.timeout rfl,
   C2_amended.2.2.1 oneChunkSession oneChunkWav rfl (by decide) (by decide),
   C2_amended.2.2.2 initialSession rfl rfl⟩

/-- Claim C2 counterexample: the zero-audio completion settles the session as
a failure with no close issued (`closeCode = none`), so the connection is not
closed on this settlement path. -/
theorem C2_counterexample :
    (runSession [evRespDoneCompleted, evSessionFinished]).settled = true ∧
    (runSession [evRespDoneCompleted, evSessionFinished]).outcome
      = some (SessionOutcome.failure FailReason.noAudio) ∧
    (runSession [evRespDoneCompleted, evSessionFinished]).closeCode = none := by
  decide

/-- Claim C3 (amended): when the synthesis endpoint returns a success
response with inline base64 audio, the adapter returns the decoded bytes
unchanged - it does not wrap them into a container - and the duration is
computed by `getWavDurationFromBuffer`, which for non-RIFF bytes is the
`round(8N/128)` fallback; `"voice-tts-batch-v1"` indeed selects this
non-realtime transport.  The claim's `44 + N`-byte wrapping fails: see the
counterexample. -/
theorem C3_amended (r : HttpResponse) (fetchAudio : String → AudioFetch) (s : String)
    (hok : r.ok = true)
    (hb64 : readQwenAudioBase64 (responseDataOf r) = some s) :
    generateVoiceWithQwenTTSHttp r fetchAudio
      = Except.ok { audioData := base64Decode s,
                    audioDuration := getWavDurationFromBuffer (base64Decode s) } ∧
    (asciiSlice (base64Decode s) 0 4 ≠ [82, 73, 70, 70] →
      getWavDurationFromBuffer (base64Decode s)
        = jsRound ((base64Decode s).length * 8) 128) ∧
    isQwenRealtimeModel "voice-tts-batch-v1" = false := by
  refine ⟨?_, fun h => wavDuration_fallback_of_not_riff _ h, by decide⟩
  simp [generateVoiceWithQwenTTSHttp, hok, hb64]

/-- Claim C3 witness: the amended theorem at the concrete inline-base64
response. -/
theorem C3_amended_witness :
    generateVoiceWithQwenTTSHttp inlineAudioResponse noFetch
      = Except.ok { audioData := base64Decode "AA==",
                    audioDuration := getWavDurationFromBuffer (base64Decode "AA==") } ∧
    getWavDurationFromBuffer (base64Decode "AA==")
      = jsRound ((base64Decode "AA==").length * 8) 128 ∧
    isQwenRealtimeModel "voice-tts-batch-v1" = false := by
  have h := C3_amended inlineAudioResponse noFetch "AA==" rfl (by decide)
  exact ⟨h.1, h.2.1 (by decide), h.2.2⟩

/-- Claim C3 counterexample: a success response with inline base64 of one
raw non-container byte yields a one-byte result, not a `44 + 1`-byte
container. -/
theorem C3_counterexample :
    (generateVoiceWithQwenTTSHttp inlineAudioResponse noFetch).toOption
      = some { audioData := [0], audioDuration := 0 } ∧
    ([0] : List Nat).length ≠ 44 + 1 := by
  decide

/-- Claim C4 (confirmed): when the finish path is taken with zero
accumulated audio-delta chunks, the session settles as the protocol failure
`noAudio` (`QWEN_TTS_INVALID_RESPONSE: missing response.audio.delta`), and
from an unsettled zero-chunk state no single event can settle the session as
a success with empty audio. -/
theorem C4_zero_audio (s : SessionState)
    (h1 : s.settled = false) (h2 : s.audioChunks = []) (h3 : s.outcome = none) :
    (sessionFinish s).settled = true ∧
    (sessionFinish s).outcome = some (SessionOutcome.failure FailReason.noAudio) ∧
    ∀ (e : WsEvent) (a : List Nat) (d : Nat),
      (sessionStep s e).outcome ≠ some (SessionOutcome.success a d) := by
  refine ⟨?_, ?_, fun e => sessionStep_no_success_of_no_audio s e h1 h2 h3⟩
  · rw [sessionFinish_noAudio s h1 h2]
  · rw [sessionFinish_noAudio s h1 h2]

/-- Claim C4 witness: the theorem at the freshly created session. -/
theorem C4_zero_audio_witness :
    (sessionFinish initialSession).settled = true ∧
    (sessionFinish initialSession).outcome = some (SessionOutcome.failure FailReason.noAudio) ∧
    (sessionStep initialSession WsEvent.timeout).outcome
      ≠ some (SessionOutcome.success [0] 0) := by
  have h := C4_zero_audio initialSession rfl rfl rfl
  exact ⟨h.1, h.2.1, h.2.2 WsEvent.timeout [0] 0⟩

/-- Claim C5 (amended): the duration computation is total and non-negative
and equals the `round(totalBytes*8/128)` fallback whenever the buffer does
not begin with `"RIFF"`, whenever parsing raises, and whenever parsing yields
a zero data size or a zero byte rate.  The claim's "not container-formatted"
condition fails: the code checks only the `"RIFF"` magic, not `"WAVE"`, so a
non-container buffer beginning with `"RIFF"` can be parsed normally - see the
counterexample. -/
theorem C5_amended (b : List Nat) :
    (asciiSlice b 0 4 ≠ [82, 73, 70, 70] →
      getWavDurationFromBuffer b = jsRound (b.length * 8) 128) ∧
    (getWavDurationTry b = none →
      getWavDurationFromBuffer b = jsRound (b.length * 8) 128) ∧
    (∀ byteRate dataSize, readUInt32LE b 28 = some byteRate →
      findDataChunkSize b 12 = some dataSize → (dataSize = 0 ∨ byteRate = 0) →
      getWavDurationFromBuffer b = jsRound (b.length * 8) 128) ∧
    0 ≤ getWavDurationFromBuffer b := by
  refine ⟨fun h => wavDuration_fallback_of_not_riff b h, ?_, ?_, Nat.zero_le _⟩
  · intro h
    simp [getWavDurationFromBuffer, h]
  · intro byteRate dataSize h28 hfind h0
    by_cases hR : asciiSlice b 0 4 = [82, 73, 70, 70]
    · have hcond : ¬ (0 < dataSize ∧ 0 < byteRate) := by omega
      simp [getWavDurationFromBuffer, getWavDurationTry, hR, h28, hfind, hcond]
    · exact wavDuration_fallback_of_not_riff b hR

/-- Claim C5 witness: the fallback clause at a one-byte buffer. -/
theorem C5_amended_witness :
    getWavDurationFromBuffer [0] = jsRound (([0] : List Nat).length * 8) 128 :=
  (C5_amended [0]).1 (by decide)

/-- Claim C5 counterexample: a 32-byte buffer with `"RIFF"` but without
`"WAVE"` is not container-formatted, yet its duration is computed from its
chunk list (4000 ms), not by the fallback (2 ms). -/
theorem C5_counterexample :
    isWavBuffer riffNoWaveBuf = false ∧
    getWavDurationFromBuffer riffNoWaveBuf = 4000 ∧
    jsRound (riffNoWaveBuf.length * 8) 128 = 2 := by
  refine ⟨by decide, ?_, by decide⟩
  simp [getWavDurationFromBuffer, getWavDurationTry, riffNoWaveBuf, readUInt32LE,
    asciiSlice, jsRound]
  rw [findDataChunkSize]
  simp [readUInt32LE, asciiSlice, riffNoWaveBuf, jsRound]

set_option maxHeartbeats 1600000 in
/-- Claim C6 (amended): for every non-empty PCM byte sequence and sample
rate whose derived 32-bit header fields are in range, the wrapper produces
exactly `44 + len(p)` bytes beginning with `"RIFF"` and `"WAVE"`, with total
size field `36 + len(p)` and data size field `len(p)`, and the duration of
the wrapped buffer is `round(len(p)*1000/(sr*2))`.  The claim as stated
fails for empty PCM: see the counterexample (and the header writes raise
outside the u32 range, whence the range hypotheses). -/
theorem C6_amended (p : List Nat) (sr : Nat)
    (hp : 1 ≤ p.length) (hpb : 36 + p.length ≤ 4294967295)
    (hsr : 1 ≤ sr) (hbr : sr * 2 ≤ 4294967295) :
    ∃ w, wrapPcm16MonoToWav p sr = some w ∧
      w.length = 44 + p.length ∧
      asciiSlice w 0 4 = [82, 73, 70, 70] ∧
      asciiSlice w 8 4 = [87, 65, 86, 69] ∧
      readUInt32LE w 4 = some (36 + p.length) ∧
      readUInt32LE w 40 = some p.length ∧
      getWavDurationFromBuffer w = jsRound (p.length * 1000) (sr * 2) := by
  refine ⟨[82,73,70,70] ++ u32le (36 + p.length) ++ [87,65,86,69] ++ [102,109,116,32] ++
      u32le 16 ++ u16le 1 ++ u16le 1 ++ u32le sr ++ u32le (sr * 2) ++ u16le 2 ++
      u16le 16 ++ [100,97,116,97] ++ u32le p.length ++ p, ?_, ?_, ?_, ?_, ?_, ?_, ?_⟩
  · unfold wrapPcm16MonoToWav
    rw [if_pos ⟨hpb, by omega, hbr, by omega⟩]
  · simp [u32le, u16le]
    omega
  · rfl
  · rfl
  · have h4 : readUInt32LE ([82,73,70,70] ++ u32le (36 + p.length) ++ [87,65,86,69] ++
        [102,109,116,32] ++ u32le 16 ++ u16le 1 ++ u16le 1 ++ u32le sr ++ u32le (sr * 2) ++
        u16le 2 ++ u16le 16 ++ [100,97,116,97] ++ u32le p.length ++ p) 4
        = some ((36 + p.length) % 256 % 256 + 256 * ((36 + p.length) / 256 % 256 % 256) +
          65536 * ((36 + p.length) / 65536 % 256 % 256) +
          16777216 * ((36 + p.length) / 16777216 % 256 % 256)) := rfl
    rw [h4]
    congr 1
    omega
  · have h40 : readUInt32LE ([82,73,70,70] ++ u32le (36 + p.length) ++ [87,65,86,69] ++
        [102,109,116,32] ++ u32le 16 ++ u16le 1 ++ u16le 1 ++ u32le sr ++ u32le (sr * 2) ++
        u16le 2 ++ u16le 16 ++ [100,97,116,97] ++ u32le p.length ++ p) 40
        = some (p.length % 256 % 256 + 256 * (p.length / 256 % 256 % 256) +
          65536 * (p.length / 65536 % 256 % 256) +
          16777216 * (p.length / 16777216 % 256 % 256)) := rfl
    rw [h40]
    congr 1
    omega
  · set w := [82,73,70,70] ++ u32le (36 + p.length) ++ [87,65,86,69] ++ [102,109,116,32] ++
      u32le 16 ++ u16le 1 ++ u16le 1 ++ u32le sr ++ u32le (sr * 2) ++ u16le 2 ++
      u16le 16 ++ [100,97,116,97] ++ u32le p.length ++ p with hw
    have hlen : w.length = 44 + p.length := by
      rw [hw]; simp [u32le, u16le]; omega
    have hR : asciiSlice w 0 4 = [82, 73, 70, 70] := rfl
    have h28 : readUInt32LE w 28 = some (sr * 2) := by
      have h : readUInt32LE w 28 = some (sr * 2 % 256 % 256 + 256 * (sr * 2 / 256 % 256 % 256) +
        65536 * (sr * 2 / 65536 % 256 % 256) + 16777216 * (sr * 2 / 16777216 % 256 % 256)) := rfl
      rw [h]
      congr 1
      omega
    have hfind : findDataChunkSize w 12 = some p.length := by
      rw [findDataChunkSize, dif_pos (by rw [hlen]; push_cast; omega)]
      have h16 : readUInt32LE w (12 + 4) = some 16 := rfl
      rw [h16]
      have hfmt : asciiSlice w 12 4 = [102, 109, 116, 32] := rfl
      simp only [hfmt]
      rw [if_neg (by decide)]
      rw [findDataChunkSize, dif_pos (by rw [hlen]; push_cast; omega)]
      have h40 : readUInt32LE w (12 + 8 + 16 + 4)
          = some (p.length % 256 % 256 + 256 * (p.length / 256 % 256 % 256) +
            65536 * (p.length / 65536 % 256 % 256) +
            16777216 * (p.length / 16777216 % 256 % 256)) := rfl
      rw [h40]
      have hdata : asciiSlice w (12 + 8 + 16) 4 = [100, 97, 116, 97] := rfl
      simp only [hdata]
      simp only [if_true]
      congr 1
      omega
    unfold getWavDurationFromBuffer getWavDurationTry
    rw [hR]
    simp only [ne_eq, not_true_eq_false, if_false]
    rw [h28, hfind]
    have hcond : 0 < p.length ∧ 0 < sr * 2 := ⟨by omega, by omega⟩
    simp only []
    rw [if_pos hcond]

/-- Claim C6 witness: the amended theorem at a one-byte PCM payload and
24000 Hz. -/
theorem C6_amended_witness :
    wrapPcm16MonoToWav [0] 24000 = some oneChunkWav ∧
    oneChunkWav.length = 44 + ([0] : List Nat).length ∧
    asciiSlice oneChunkWav 0 4 = [82, 73, 70, 70] ∧
    asciiSlice oneChunkWav 8 4 = [87, 65, 86, 69] ∧
    readUInt32LE oneChunkWav 4 = some (36 + ([0] : List Nat).length) ∧
    readUInt32LE oneChunkWav 40 = some ([0] : List Nat).length ∧
    getWavDurationFromBuffer oneChunkWav
      = jsRound (([0] : List Nat).length * 1000) (24000 * 2) := by
  obtain ⟨w, h1, h2, h3, h4, h5, h6, h7⟩ :=
    C6_amended [0] 24000 (by decide) (by decide) (by decide) (by decide)
  have hw : w = oneChunkWav := by
    have h1' : wrapPcm16MonoToWav [0] 24000 = some oneChunkWav := by decide
    rw [h1] at h1'
    exact Option.some.inj h1'
  rw [hw] at h1 h2 h3 h4 h5 h6 h7
  exact ⟨h1, h2, h3, h4, h5, h6, h7⟩

/-- Claim C6 counterexample: wrapping an empty PCM payload gives a 44-byte
container whose duration computes to 3 ms via the fallback (the chunk scan
stops before a `"data"` chunk header that ends exactly at the buffer end),
not the claimed `round(0/(sr*2)*1000) = 0` ms. -/
theorem C6_counterexample :
    wrapPcm16MonoToWav [] 1 = some emptyPcmWav ∧
    getWavDurationFromBuffer emptyPcmWav = 3 ∧
    jsRound (([] : List Nat).length * 1000) (1 * 2) = 0 := by
  refine ⟨by decide, ?_, by decide⟩
  simp [getWavDurationFromBuffer, getWavDurationTry, emptyPcmWav, readUInt32LE,
    asciiSlice, jsRound]
  rw [findDataChunkSize]
  simp [readUInt32LE, asciiSlice, emptyPcmWav, jsRound]
  rw [findDataChunkSize]
  simp [readUInt32LE, asciiSlice, emptyPcmWav, jsRound]

/-- Claim C7 (amended): on an unsettled session, an inbound message whose
trimmed text is non-empty settles the session as a protocol failure whenever
it is unparseable, parses to a non-record, or lacks a non-empty string
`type` discriminator.  The claim as stated fails for messages that are empty
after trimming - they are unparseable yet silently ignored: see the
counterexample. -/
theorem C7_amended (s : SessionState) (text : String) (parsed : Option Json)
    (hs : s.settled = false) (ht : jsTrim text ≠ "") :
    (parsed = none →
      (sessionStep s (WsEvent.message text parsed)).settled = true ∧
      (sessionStep s (WsEvent.message text parsed)).outcome
        = some (SessionOutcome.failure (FailReason.invalidEventUnparseable (jsTrim text)))) ∧
    (∀ j, parsed = some j → isRecordJ j = false →
      (sessionStep s (WsEvent.message text parsed)).settled = true ∧
      (sessionStep s (WsEvent.message text parsed)).outcome
        = some (SessionOutcome.failure FailReason.invalidEventNotObject)) ∧
    (∀ fields, parsed = some (Json.obj fields) →
      readOptionalStringJ (jget fields "type") = none →
      (sessionStep s (WsEvent.message text parsed)).settled = true ∧
      (sessionStep s (WsEvent.message text parsed)).outcome
        = some (SessionOutcome.failure FailReason.invalidEventMissingType)) := by
  refine ⟨?_, ?_, ?_⟩
  · rintro rfl
    simp only [sessionStep, handleMessage]
    rw [if_neg ht]
    simp [sessionFail, hs]
  · rintro j rfl hj
    cases j <;> simp_all [sessionStep, handleMessage, ht, sessionFail, hs, isRecordJ]
  · rintro fields rfl hT
    simp only [sessionStep, handleMessage]
    rw [if_neg ht, hT]
    simp [sessionFail, hs]

/-- Claim C7 witness: the three protocol-failure modes at concrete
messages. -/
theorem C7_amended_witness :
    ((sessionStep initialSession (WsEvent.message "x" none)).outcome
      = some (SessionOutcome.failure (FailReason.invalidEventUnparseable (jsTrim "x")))) ∧
    ((sessionStep initialSession (WsEvent.message "5" (some (Json.num 5)))).outcome
      = some (SessionOutcome.failure FailReason.invalidEventNotObject)) ∧
    ((sessionStep initialSession (WsEvent.message "y" (some (Json.obj [])))).outcome
      = some (SessionOutcome.failure FailReason.invalidEventMissingType)) :=
  ⟨((C7_amended initialSession "x" none rfl (by decide)).1 rfl).2,
   ((C7_amended initialSession "5" (some (Json.num 5)) rfl (by decide)).2.1
      (Json.num 5) rfl (by decide)).2,
   ((C7_amended initialSession "y" (some (Json.obj [])) rfl (by decide)).2.2
      [] rfl (by decide)).2⟩

/-- Claim C7 counterexample: a whitespace-only message is not valid JSON,
yet the session ignores it and stays unsettled instead of failing. -/
theorem C7_counterexample :
    jsTrim " " = "" ∧
    sessionStep initialSession (WsEvent.message " " none) = initialSession ∧
    (sessionStep initialSession (WsEvent.message " " none)).settled = false := by
  decide

/-- Claim C8 (confirmed): the queue classification is a total pure mapping -
image kinds map to the image queue, video kinds to video, voice kinds to
voice, every kind in none of the three sets maps to the text fallback, and
each kind maps to exactly one queue. -/
theorem C8_classify (t : TaskType) :
    (IMAGE_TYPES.contains t = true → getQueueTypeByTaskType t = QueueType.image) ∧
    (VIDEO_TYPES.contains t = true → getQueueTypeByTaskType t = QueueType.video) ∧
    (VOICE_TYPES.contains t = true → getQueueTypeByTaskType t = QueueType.voice) ∧
    (IMAGE_TYPES.contains t = false → VIDEO_TYPES.contains t = false →
      VOICE_TYPES.contains t = false → getQueueTypeByTaskType t = QueueType.text) ∧
    ((getQueueTypeByTaskType t = QueueType.image ∧ IMAGE_TYPES.contains t = true) ∨
     (getQueueTypeByTaskType t = QueueType.video ∧ VIDEO_TYPES.contains t = true) ∨
     (getQueueTypeByTaskType t = QueueType.voice ∧ VOICE_TYPES.contains t = true) ∨
     (getQueueTypeByTaskType t = QueueType.text ∧ IMAGE_TYPES.contains t = false ∧
      VIDEO_TYPES.contains t = false ∧ VOICE_TYPES.contains t = false)) := by
  cases t <;> decide

/-- Claim C8 witness: the mapping at one voice, one image and one video
kind. -/
theorem C8_classify_witness :
    getQueueTypeByTaskType TaskType.VOICE_LINE = QueueType.voice ∧
    getQueueTypeByTaskType TaskType.IMAGE_PANEL = QueueType.image ∧
    getQueueTypeByTaskType TaskType.LIP_SYNC = QueueType.video :=
  ⟨(C8_classify TaskType.VOICE_LINE).2.2.1 (by decide),
   (C8_classify TaskType.IMAGE_PANEL).1 (by decide),
   (C8_classify TaskType.LIP_SYNC).2.1 (by decide)⟩

/-- Claim C9 (amended): a `response.done` whose `response` object is absent
or whose status is missing, non-string or empty always records
`hasResponseDone`, never settles with the status-failure reason, and leaves
the session unsettled when no `session.finished` was seen; only a present,
non-empty status different from `completed` settles the session with the
`responseFailed` reason.  The claim's "only such events cause a failure
settlement" fails: a status-less `response.done` can still trigger the
independent zero-audio protocol failure - see the counterexample. -/
theorem C9_amended (s : SessionState) (text : String) (fields : List (String × Json))
    (hs : s.settled = false) (ho : s.outcome = none) (ht : jsTrim text ≠ "")
    (hty : readOptionalStringJ (jget fields "type") = some "response.done") :
    (sessionStep s (WsEvent.message text (some (Json.obj fields)))).hasResponseDone = true ∧
    (responseStatusOf fields = none →
      (∀ stv, (sessionStep s (WsEvent.message text (some (Json.obj fields)))).outcome
        ≠ some (SessionOutcome.failure (FailReason.responseFailed stv))) ∧
      (s.hasSessionFinished = false →
        (sessionStep s (WsEvent.message text (some (Json.obj fields)))).settled = false ∧
        (sessionStep s (WsEvent.message text (some (Json.obj fields)))).outcome = none)) ∧
    (∀ stv, responseStatusOf fields = some stv → stv ≠ "completed" →
      (sessionStep s (WsEvent.message text (some (Json.obj fields)))).settled = true ∧
      (sessionStep s (WsEvent.message text (some (Json.obj fields)))).outcome
        = some (SessionOutcome.failure (FailReason.responseFailed stv))) := by
  have e1 : sessionStep s (WsEvent.message text (some (Json.obj fields)))
      = match responseStatusOf fields with
        | some st =>
            if st ≠ "completed" then
              sessionFail (FailReason.responseFailed st) { s with hasResponseDone := true }
            else if s.hasSessionFinished then
              sessionFinish { s with hasResponseDone := true }
            else { s with hasResponseDone := true }
        | none =>
            if s.hasSessionFinished then sessionFinish { s with hasResponseDone := true }
            else { s with hasResponseDone := true } := by
    simp only [sessionStep]
    exact handleMessage_respDone s text fields ht hty
  refine ⟨?_, ?_, ?_⟩
  · rw [e1]
    cases responseStatusOf fields
    all_goals simp only []
    all_goals repeat' split
    all_goals simp [sessionFinish_hasResponseDone, sessionFail_hasResponseDone]
  · intro hst
    rw [e1, hst]
    simp only []
    constructor
    · intro stv
      by_cases hsf : s.hasSessionFinished
      · rw [if_pos hsf]
        exact sessionFinish_not_responseFailed _ (by simpa using ho) stv
      · rw [if_neg hsf]
        simp [ho]
    · intro hsf
      rw [if_neg (by simp [hsf])]
      exact ⟨by simpa using hs, by simpa using ho⟩
  · intro stv hst hne
    rw [e1, hst]
    simp only []
    rw [if_pos hne]
    rw [sessionFail_of_unsettled (FailReason.responseFailed stv)
      { s with hasResponseDone := true } (by simpa using hs)]
    exact ⟨rfl, rfl⟩

/-- Claim C9 witness: a status-less `response.done` records the flag and
leaves the session unsettled; a `response.done{status:failed}` settles as a
`responseFailed` failure. -/
theorem C9_amended_witness :
    (sessionStep initialSession evRespDoneNoStatus).hasResponseDone = true ∧
    (sessionStep initialSession evRespDoneNoStatus).settled = false ∧
    (sessionStep initialSession evRespDoneNoStatus).outcome = none ∧
    (sessionStep initialSession evRespDoneFailed).settled = true ∧
    (sessionStep initialSession evRespDoneFailed).outcome
      = some (SessionOutcome.failure (FailReason.responseFailed "failed")) := by
  have h1 := C9_amended initialSession "\x7b\"type\":\"response.done\"\x7d"
    [("type", Json.str "response.done")] rfl rfl (by decide) (by decide)
  have h2 := C9_amended initialSession
    "\x7b\"type\":\"response.done\",\"response\":\x7b\"status\":\"failed\"\x7d\x7d"
    [("type", Json.str "response.done"),
     ("response", Json.obj [("status", Json.str "failed")])] rfl rfl (by decide) (by decide)
  have h2' := h2.2.2 "failed" (by decide) (by decide)
  exact ⟨h1.1, ((h1.2.1 (by decide)).2 rfl).1, ((h1.2.1 (by decide)).2 rfl).2, h2'.1, h2'.2⟩

/-- Claim C9 counterexample: after a `session.finished` with no audio (which
does not settle), a `response.done` without any status causes a failure
settlement (`noAudio`). -/
theorem C9_counterexample :
    (runSession [evSessionFinished]).settled = false ∧
    (runSession [evSessionFinished, evRespDoneNoStatus]).settled = true ∧
    (runSession [evSessionFinished, evRespDoneNoStatus]).outcome
      = some (SessionOutcome.failure FailReason.noAudio) := by
  decide

/-- Claim C10 (confirmed): job removal scans the queues in the fixed order
image, video, voice, text, removes exactly the first job found with the
given id and returns `true` immediately leaving all other queues untouched,
and returns `false` when no queue holds the id. -/
theorem C10_removeTaskJob (st : TaskQueuesState) (taskId : String) :
    (st.image.contains taskId = true →
      removeTaskJob st taskId = (true, { st with image := st.image.erase taskId })) ∧
    (st.image.contains taskId = false → st.video.contains taskId = true →
      removeTaskJob st taskId = (true, { st with video := st.video.erase taskId })) ∧
    (st.image.contains taskId = false → st.video.contains taskId = false →
      st.voice.contains taskId = true →
      removeTaskJob st taskId = (true, { st with voice := st.voice.erase taskId })) ∧
    (st.image.contains taskId = false → st.video.contains taskId = false →
      st.voice.contains taskId = false → st.text.contains taskId = true →
      removeTaskJob st taskId = (true, { st with text := st.text.erase taskId })) ∧
    (st.image.contains taskId = false → st.video.contains taskId = false →
      st.voice.contains taskId = false → st.text.contains taskId = false →
      removeTaskJob st taskId = (false, st)) := by
  refine ⟨?_, ?_, ?_, ?_, ?_⟩ <;> intros <;> simp_all [removeTaskJob]

/-- Claim C10 witness: an id present in both the image and video queues is
removed from the image queue only; a missing id returns `false`. -/
theorem C10_removeTaskJob_witness :
    removeTaskJob { image := ["a"], video := ["a"], voice := [], text := [] } "a"
      = (true, { image := [], video := ["a"], voice := [], text := [] }) ∧
    removeTaskJob { image := [], video := [], voice := [], text := [] } "a"
      = (false, { image := [], video := [], voice := [], text := [] }) :=
  ⟨(C10_removeTaskJob { image := ["a"], video := ["a"], voice := [], text := [] } "a").1 (by decide),
   (C10_removeTaskJob { image := [], video := [], voice := [], text := [] } "a").2.2.2.2
     (by decide) (by decide) (by decide) (by decide)⟩
